import Mathlib

/-!
Shallow embedding of the pressure-pad swing-detection sketch (src/arduino.cpp)
and verification of the specification's claims about it.

Modelling conventions:
* One `millis()` value per scheduler tick (`now : Nat`, milliseconds).
* `unsigned long` arithmetic is 32-bit: subtraction wraps via `wrap32`.
* Weight readings and recorded samples are exact rationals (`ℚ`), standing in
  for the sketch's `float`s; every concrete value evaluated in a theorem below
  is exactly representable at the precision the sketch prints, so the rational
  results coincide with the float results.
* The blocking `while (millis() < recordEnd)` loop of the trigger phase is a
  fuelled recursion; the fuel is an upper bound on the iteration count and is
  never exhausted at the call site.
-/

set_option maxRecDepth 4000

namespace PressurePad

/-- Outbound notification events, in the sketch's vocabulary.  `DATA` carries
the serialized payload produced by `sendData`. -/
inductive Event where
  | WEIGHT_DETECTED
  | START_SWING
  | TOP_BEEP
  | IMPACT_BEEP
  | STEPPED_OFF
  | DATA (payload : String)
  deriving DecidableEq

/-- The sketch's global mutable state: `deviceConnected`, `countdownStart`,
`recording`, the three parallel sample vectors, the tempo fields
`backFrames`/`downFrames`, and the last values returned by
`leadScale.getData()` / `trailScale.getData()` (which only change on a
successful `update()`, i.e. once per tick). -/
structure DevState where
  connected : Bool
  countdownStart : Nat
  recording : Bool
  times : List ℚ
  leadWeights : List ℚ
  trailWeights : List ℚ
  backFrames : Int
  downFrames : Int
  lastLead : ℚ
  lastTrail : ℚ
  deriving DecidableEq

/-- Initial global state (all globals zero / empty / disconnected). -/
def initState : DevState :=
  { connected := false, countdownStart := 0, recording := false, times := [],
    leadWeights := [], trailWeights := [], backFrames := 0, downFrames := 0,
    lastLead := 0, lastTrail := 0 }

/-- `const float WEIGHT_THRESHOLD = 1000.0`. -/
def WEIGHT_THRESHOLD : ℚ := 1000

/-- `const float frameTime = 0.033` (33 ms per frame).  The nearest `float` to
0.033 differs from 33/1000 by less than 2e-10; at every tempo evaluated below
the float products round to exactly the same integers as the rational ones. -/
def frameTime : ℚ := 33 / 1000

/-- `delay(SAMPLE_INTERVAL * 1000)`: `SAMPLE_INTERVAL * 1000 = 12.5f`, and the
implicit conversion to `unsigned long` truncates it to 12 ms. -/
def sampleDelayMs : Nat := 12

/-- 32-bit `unsigned long` wraparound of an integer difference. -/
def wrap32 (x : Int) : Nat := (x % 4294967296).toNat

/-- `elapsed = millis() - countdownStart` in `unsigned long` arithmetic. -/
def elapsedMs (now cs : Nat) : Nat := wrap32 ((now : Int) - (cs : Int))

/-- `backDelay = backFrames * frameTime * 1000` (ms), line 158. -/
def backDelayOf (bf : Int) : ℚ := (bf : ℚ) * frameTime * 1000

/-- `downDelay = downFrames * frameTime * 1000` (ms), line 159. -/
def downDelayOf (df : Int) : ℚ := (df : ℚ) * frameTime * 1000

/-- `totalRecordTime = backDelay + downDelay + 1000` (ms), line 160. -/
def totalRecordOf (bf df : Int) : ℚ := backDelayOf bf + downDelayOf df + 1000

/-- `recordEnd = millis() + totalRecordTime` (line 163): the float sum is
converted back to `unsigned long`, i.e. truncated. -/
def recordEndOf (now : Nat) (bf df : Int) : Nat :=
  (⌊(now : ℚ) + totalRecordOf bf df⌋).toNat

/-- Closed form of the sampling loop's exit time: starting at `t` and
stepping by 12 ms, the first time ≥ `rend` (equal to `t` when already
≥ `rend`).  `recordLoop_exitTime` below proves the loop exits at this time. -/
def loopExit (t rend : Nat) : Nat := t + 12 * ((rend - t + 11) / 12)

/-- `resetRecording()` (lines 239-245): zero the countdown, drop the recording
flag, clear all three sample vectors. -/
def resetRecording (s : DevState) : DevState :=
  { s with countdownStart := 0, recording := false, times := [],
           leadWeights := [], trailWeights := [] }

/-- `MyServerCallbacks::onConnect`: sets `deviceConnected = true` and nothing
else. -/
def onConnect (s : DevState) : DevState := { s with connected := true }

/-- `MyServerCallbacks::onDisconnect` (lines 43-51): clears the connected and
recording flags and the three sample vectors.  It does not touch
`countdownStart`. -/
def onDisconnect (s : DevState) : DevState :=
  { s with connected := false, recording := false, times := [],
           leadWeights := [], trailWeights := [] }

/-- Whitespace recognized by `atoi` (C `isspace`). -/
def isSpaceChar (c : Char) : Bool :=
  c = ' ' || c = '\t' || c = '\n' || c = '\x0b' || c = '\x0c' || c = '\r'

/-- Accumulate decimal digits, stopping at the first non-digit (the digit
loop inside C `atoi`). -/
def readDigits (acc : Nat) : List Char → Nat
  | [] => acc
  | c :: cs => if c.isDigit then readDigits (10 * acc + (c.toNat - 48)) cs else acc

/-- C `atoi`: skip whitespace, an optional sign, then read decimal digits;
no digits yields 0.  (Overflow is undefined behaviour in C; the model is
unbounded, and every value evaluated below is small.) -/
def atoi (cs : List Char) : Int :=
  match cs.dropWhile isSpaceChar with
  | [] => 0
  | c :: rest =>
    if c = '-' then - (readDigits 0 rest : Int)
    else if c = '+' then (readDigits 0 rest : Int)
    else (readDigits 0 (c :: rest) : Int)

/-- `strchr(rxData, '/')` followed by splitting at that position: `some
(before, after)` for the first `/`, `none` when there is no `/`. -/
def splitSlash : List Char → Option (List Char × List Char)
  | [] => none
  | c :: cs =>
    if c = '/' then some ([], cs)
    else match splitSlash cs with
      | none => none
      | some p => some (c :: p.1, p.2)

/-- `MyCharacteristicCallbacks::onWrite` (lines 54-80): on a non-empty value
containing a `/`, assign `backFrames = atoi(left)` and
`downFrames = atoi(right)`; otherwise leave the state untouched. -/
def onWrite (raw : String) (s : DevState) : DevState :=
  match raw.data with
  | [] => s
  | c :: cs =>
    match splitSlash (c :: cs) with
    | none => s
    | some p => { s with backFrames := atoi p.1, downFrames := atoi p.2 }

/-- The first of `onWrite`'s two assignments (line 66, `backFrames =
atoi(rxData)`), in isolation: the shared state as it stands after that
assignment and before `downFrames` is written. -/
def writeBackFrames (raw : String) (s : DevState) : DevState :=
  match raw.data with
  | [] => s
  | c :: cs =>
    match splitSlash (c :: cs) with
    | none => s
    | some p => { s with backFrames := atoi p.1 }

/-- The second of `onWrite`'s two assignments (line 67, `downFrames =
atoi(slashPos + 1)`), in isolation. -/
def writeDownFrames (raw : String) (s : DevState) : DevState :=
  match raw.data with
  | [] => s
  | c :: cs =>
    match splitSlash (c :: cs) with
    | none => s
    | some p => { s with downFrames := atoi p.2 }

/-- `recordData()` (lines 202-209): when the recording flag is set, push
`(millis() - countdownStart - 4000) / 1000.0` and the two current sensor
values onto the three vectors; otherwise do nothing. -/
def recordData (now : Nat) (s : DevState) : DevState :=
  if s.recording then
    let rel : ℚ := (wrap32 ((now : Int) - (s.countdownStart : Int) - 4000) : ℚ) / 1000
    { s with times := s.times ++ [rel],
             leadWeights := s.leadWeights ++ [s.lastLead],
             trailWeights := s.trailWeights ++ [s.lastTrail] }
  else s

/-- The blocking sampling loop `while (millis() < recordEnd) { recordData();
delay(12); }` (lines 164-167).  Returns the state together with the value of
`millis()` at loop exit.  The first argument is fuel bounding the iteration
count; the call site passes `recordEnd + 1`, which can never be exhausted
since `millis()` advances by 12 each iteration. -/
def recordLoop : Nat → Nat → Nat → DevState → DevState × Nat
  | 0, _, t, s => (s, t)
  | fuel + 1, rend, t, s =>
    if t < rend then recordLoop fuel rend (t + sampleDelayMs) (recordData t s)
    else (s, t)

/-- Decimal digits of a natural number, via the auxiliary fuelled loop. -/
def natCharsGo : Nat → Nat → List Char → List Char
  | 0, _, acc => acc
  | fuel + 1, n, acc =>
    if n < 10 then Char.ofNat (n + 48) :: acc
    else natCharsGo fuel (n / 10) (Char.ofNat (n % 10 + 48) :: acc)

/-- Decimal representation of a natural number (no leading zeros; `0` is
rendered as the single digit 0). -/
def natChars (n : Nat) : List Char := natCharsGo (n + 1) n []

/-- Left-pad a digit string with zeros to width `d`. -/
def padZeros (d : Nat) (cs : List Char) : List Char :=
  List.replicate (d - cs.length) '0' ++ cs

/-- Fixed-point rendering of a non-negative rational with `d` decimal places,
the behaviour of `String(value, d)` on the ESP32 (printf "%.*f"): scale by
10^d and round.  Every value rendered in the theorems below is an exact
multiple of 10^(-d), so no rounding-mode subtlety arises. -/
def fmtNonneg (q : ℚ) (d : Nat) : List Char :=
  let n : Nat := (⌊q * (10 : ℚ) ^ d + 1 / 2⌋).toNat
  natChars (n / 10 ^ d) ++ '.' :: padZeros d (natChars (n % 10 ^ d))

/-- Fixed-point rendering with sign, the model of `String(value, decimals)`. -/
def fmtFixed (q : ℚ) (d : Nat) : List Char :=
  if q < 0 then '-' :: fmtNonneg (-q) d else fmtNonneg q d

/-- One `for` loop of `sendData`: append `String(v, d) + ","` for each value. -/
def appendGroup (acc : List Char) (vals : List ℚ) (d : Nat) : List Char :=
  vals.foldl (fun a v => a ++ fmtFixed v d ++ [',']) acc

/-- `dataStr.remove(dataStr.length() - 1)`: Arduino `String::remove(index)`
truncates the string at `index`, so with `index = length - 1` it drops the
last character; on an empty string the out-of-range index makes it a no-op.
`List.dropLast` has exactly this behaviour. -/
def removeLastChar (cs : List Char) : List Char := cs.dropLast

/-- `sendData()` (lines 211-237): four groups — times to 4 decimals, lead
weights to 1 decimal, times again, trail weights to 1 decimal — each built
with a trailing comma that is then removed, joined as `(...);(...)`. -/
def sendData (times leads trails : List ℚ) : String :=
  let s1 := appendGroup ['('] times 4
  let s2 := removeLastChar s1 ++ [')', ';', '(']
  let s3 := appendGroup s2 leads 1
  let s4 := removeLastChar s3 ++ [')', ';', '(']
  let s5 := appendGroup s4 times 4
  let s6 := removeLastChar s5 ++ [')', ';', '(']
  let s7 := appendGroup s6 trails 1
  String.mk (removeLastChar s7 ++ [')'])

/-- The `elapsed >= 5000` branch of `loop()` (lines 151-182), which runs
synchronously to completion: notify `START_SWING`, sample for
`backDelay + downDelay + 1000` ms at 12 ms cadence, `delay(backDelay)`,
notify `TOP_BEEP`, `delay(downDelay)`, notify `IMPACT_BEEP`, send the
serialized data, and `resetRecording()`.  Events are returned with the
`millis()` timestamp at which they are notified.  `recordEnd` and the two
`delay` arguments undergo the sketch's float-to-`unsigned long` truncation,
modelled by `Int.floor`/`toNat` (negative delays are undefined behaviour in
the sketch and clamp to 0 here). -/
def triggerPhase (now : Nat) (s : DevState) : DevState × List (Nat × Event) :=
  let backDelay : ℚ := backDelayOf s.backFrames
  let downDelay : ℚ := downDelayOf s.downFrames
  let s1 : DevState := { s with recording := true }
  let recordEnd : Nat := recordEndOf now s.backFrames s.downFrames
  let r := recordLoop (recordEnd + 1) recordEnd now s1
  let tTop : Nat := r.2 + (⌊backDelay⌋).toNat
  let tImpact : Nat := tTop + (⌊downDelay⌋).toNat
  let payload : String := sendData r.1.times r.1.leadWeights r.1.trailWeights
  (resetRecording r.1,
    [(now, Event.START_SWING), (tTop, Event.TOP_BEEP),
     (tImpact, Event.IMPACT_BEEP), (tImpact, Event.DATA payload)])

/-- One iteration of `loop()` with the device connected and both scales
delivering a fresh sample (lines 129-197).  `now` is the tick's `millis()`
value; `lead`/`trail` are the new `getData()` readings. -/
def stepConnected (now : Nat) (lead trail : ℚ) (s : DevState) :
    DevState × List (Nat × Event) :=
  let s0 : DevState := { s with lastLead := lead, lastTrail := trail }
  if WEIGHT_THRESHOLD < lead ∧ WEIGHT_THRESHOLD < trail then
    let p : DevState × List (Nat × Event) :=
      if s0.countdownStart = 0 then
        ({ s0 with countdownStart := now }, [(now, Event.WEIGHT_DETECTED)])
      else (s0, [])
    let s1 := p.1
    let elapsed := elapsedMs now s1.countdownStart
    if 5000 ≤ elapsed then
      let r := triggerPhase now s1
      (r.1, p.2 ++ r.2)
    else if 4000 ≤ elapsed ∧ s1.recording = false then
      ({ s1 with recording := true }, p.2)
    else (s1, p.2)
  else
    if s0.countdownStart ≠ 0 then (resetRecording s0, [(now, Event.STEPPED_OFF)])
    else (s0, [])

/-- One iteration of `loop()`: a no-op while disconnected. -/
def step (now : Nat) (lead trail : ℚ) (s : DevState) :
    DevState × List (Nat × Event) :=
  if s.connected then stepConnected now lead trail s else (s, [])

/-- Run a list of ticks `(millis, leadReading, trailReading)` through `loop()`,
collecting all notified events in order. -/
def runTicks : List (Nat × ℚ × ℚ) → DevState → DevState × List (Nat × Event)
  | [], s => (s, [])
  | tk :: ticks, s =>
    let r := step tk.1 tk.2.1 tk.2.2 s
    let rest := runTicks ticks r.1
    (rest.1, r.2 ++ rest.2)

/-- Value of a non-empty string of decimal digits, read most significant
first — the meaning the specification assigns to a non-negative decimal
integer in a command string. -/
def decimalValue (cs : List Char) : Nat :=
  cs.foldl (fun a c => 10 * a + (c.toNat - 48)) 0

/-- The three parallel sequences have equal length (the RecordedSeries
invariant of the specification). -/
def eqLen (s : DevState) : Prop :=
  s.times.length = s.leadWeights.length ∧ s.times.length = s.trailWeights.length

/-- Ticks with presence continuously true: detection at 1000 ms, then two
ticks inside the armed window (elapsed 4100 ms and 4900 ms). -/
def c1Ticks : List (Nat × ℚ × ℚ) :=
  [(1000, 1500, 1500), (5100, 1500, 1500), (5900, 1500, 1500)]

/-- The device state just before the tick that crosses the 5000 ms boundary. -/
def c1State : DevState := (runTicks c1Ticks (onConnect initState)).1

/-- Connected device with tempo set by the command `6/3`. -/
def c2State : DevState := onWrite "6/3" (onConnect initState)

/-- A full cycle at tempo 6/3: detection at 1000 ms, trigger at 6000 ms. -/
def c2Run : DevState × List (Nat × Event) :=
  runTicks [(1000, 1500, 1500), (6000, 1500, 1500)] c2State

/-- Presence at 1000 ms, step-off at 3000 ms (before the 5000 ms boundary),
and one more absent tick at 3100 ms. -/
def c7Ticks : List (Nat × ℚ × ℚ) :=
  [(1000, 1500, 1500), (3000, 500, 1500), (3100, 500, 500)]

/-- The run of `c7Ticks` from a freshly connected device. -/
def c7Run : DevState × List (Nat × Event) := runTicks c7Ticks (onConnect initState)

/-- A connected device mid-countdown: countdown started at 1000 ms, tempo 6/3,
nothing recorded yet. -/
def armedState : DevState :=
  { connected := true, countdownStart := 1000, recording := false, times := [],
    leadWeights := [], trailWeights := [], backFrames := 6, downFrames := 3,
    lastLead := 1500, lastTrail := 1500 }

/-- A state observed one tick after connecting with presence: countdown
running since 1000 ms. -/
def preDisconnect : DevState := (runTicks [(1000, 1500, 1500)] (onConnect initState)).1

/-- Connected device holding the old tempo config (6, 3). -/
def c9Old : DevState :=
  { (onConnect initState) with backFrames := 6, downFrames := 3 }

/-- State after the first presence tick of `c1Ticks`: countdown started at
1000 ms. -/
def c1a : DevState :=
  { onConnect initState with lastLead := 1500, lastTrail := 1500, countdownStart := 1000 }

/-- State after the armed-window ticks of `c1Ticks`: the recording flag is set
but nothing has been appended. -/
def c1b : DevState := { c1a with recording := true }

/-- State after the first presence tick of the tempo-6/3 run. -/
def c2a : DevState :=
  { c2State with lastLead := 1500, lastTrail := 1500, countdownStart := 1000 }

/-- State after the step-off tick of `c7Ticks`. -/
def c7b : DevState := resetRecording { c1a with lastLead := 500, lastTrail := 1500 }

theorem elapsedMs_self (now : Nat) : elapsedMs now now = 0 := by
  unfold elapsedMs wrap32
  omega

theorem elapsedMs_eq_sub (now cs : Nat) (h1 : cs ≤ now)
    (h2 : now - cs < 4294967296) : elapsedMs now cs = now - cs := by
  unfold elapsedMs wrap32
  omega

theorem presence1500 : WEIGHT_THRESHOLD < (1500 : ℚ) ∧ WEIGHT_THRESHOLD < (1500 : ℚ) := by
  with_unfolding_all decide

theorem absent_500_1500 : ¬ (WEIGHT_THRESHOLD < (500 : ℚ) ∧ WEIGHT_THRESHOLD < (1500 : ℚ)) := by
  with_unfolding_all decide

theorem absent_500_500 : ¬ (WEIGHT_THRESHOLD < (500 : ℚ) ∧ WEIGHT_THRESHOLD < (500 : ℚ)) := by
  with_unfolding_all decide

theorem stepConnected_detect (now : Nat) (lead trail : ℚ) (s : DevState)
    (hp : WEIGHT_THRESHOLD < lead ∧ WEIGHT_THRESHOLD < trail)
    (hcs : s.countdownStart = 0) :
    stepConnected now lead trail s =
      ({ s with lastLead := lead, lastTrail := trail, countdownStart := now },
       [(now, Event.WEIGHT_DETECTED)]) := by
  simp only [stepConnected, hcs]
  rw [if_pos hp]
  simp [elapsedMs_self]

theorem stepConnected_countdown (now : Nat) (lead trail : ℚ) (s : DevState)
    (hp : WEIGHT_THRESHOLD < lead ∧ WEIGHT_THRESHOLD < trail)
    (hcs : s.countdownStart ≠ 0) (hle : s.countdownStart ≤ now)
    (hw : now - s.countdownStart < 4294967296)
    (h4 : now - s.countdownStart < 4000) :
    stepConnected now lead trail s =
      ({ s with lastLead := lead, lastTrail := trail }, []) := by
  simp only [stepConnected]
  rw [if_pos hp]
  simp only [if_neg hcs]
  simp [elapsedMs_eq_sub now s.countdownStart hle hw]
  rw [if_neg (show ¬ 5000 ≤ now - s.countdownStart from by omega),
      if_neg (fun hh => absurd hh.1 (show ¬ 4000 ≤ now - s.countdownStart from by omega))]

theorem stepConnected_armed (now : Nat) (lead trail : ℚ) (s : DevState)
    (hp : WEIGHT_THRESHOLD < lead ∧ WEIGHT_THRESHOLD < trail)
    (hcs : s.countdownStart ≠ 0) (hle : s.countdownStart ≤ now)
    (hw : now - s.countdownStart < 4294967296)
    (h4 : 4000 ≤ now - s.countdownStart) (h5 : now - s.countdownStart < 5000)
    (hrec : s.recording = false) :
    stepConnected now lead trail s =
      ({ s with lastLead := lead, lastTrail := trail, recording := true }, []) := by
  simp only [stepConnected]
  rw [if_pos hp]
  simp only [if_neg hcs]
  simp [elapsedMs_eq_sub now s.countdownStart hle hw]
  rw [if_neg (show ¬ 5000 ≤ now - s.countdownStart from by omega),
      if_pos (show 4000 ≤ now - s.countdownStart ∧ s.recording = false from ⟨h4, hrec⟩)]

theorem stepConnected_armed_already (now : Nat) (lead trail : ℚ) (s : DevState)
    (hp : WEIGHT_THRESHOLD < lead ∧ WEIGHT_THRESHOLD < trail)
    (hcs : s.countdownStart ≠ 0) (hle : s.countdownStart ≤ now)
    (hw : now - s.countdownStart < 4294967296)
    (h5 : now - s.countdownStart < 5000)
    (hrec : s.recording = true) :
    stepConnected now lead trail s =
      ({ s with lastLead := lead, lastTrail := trail }, []) := by
  simp only [stepConnected]
  rw [if_pos hp]
  simp only [if_neg hcs]
  simp [elapsedMs_eq_sub now s.countdownStart hle hw]
  rw [if_neg (show ¬ 5000 ≤ now - s.countdownStart from by omega),
      if_neg (show ¬ (4000 ≤ now - s.countdownStart ∧ s.recording = false) from by
        simp [hrec])]

theorem stepConnected_trigger (now : Nat) (lead trail : ℚ) (s : DevState)
    (hp : WEIGHT_THRESHOLD < lead ∧ WEIGHT_THRESHOLD < trail)
    (hcs : s.countdownStart ≠ 0) (hle : s.countdownStart ≤ now)
    (hw : now - s.countdownStart < 4294967296)
    (h5 : 5000 ≤ now - s.countdownStart) :
    stepConnected now lead trail s =
      triggerPhase now { s with lastLead := lead, lastTrail := trail } := by
  simp only [stepConnected]
  rw [if_pos hp]
  simp only [if_neg hcs]
  simp [elapsedMs_eq_sub now s.countdownStart hle hw, h5]

theorem stepConnected_stepoff (now : Nat) (lead trail : ℚ) (s : DevState)
    (hnp : ¬ (WEIGHT_THRESHOLD < lead ∧ WEIGHT_THRESHOLD < trail))
    (hcs : s.countdownStart ≠ 0) :
    stepConnected now lead trail s =
      (resetRecording { s with lastLead := lead, lastTrail := trail },
       [(now, Event.STEPPED_OFF)]) := by
  simp only [stepConnected]
  rw [if_neg hnp]
  simp [hcs]

theorem stepConnected_idle_absent (now : Nat) (lead trail : ℚ) (s : DevState)
    (hnp : ¬ (WEIGHT_THRESHOLD < lead ∧ WEIGHT_THRESHOLD < trail))
    (hcs : s.countdownStart = 0) :
    stepConnected now lead trail s =
      ({ s with lastLead := lead, lastTrail := trail }, []) := by
  simp only [stepConnected, hcs]
  rw [if_neg hnp]
  simp

theorem step_of_connected (now : Nat) (lead trail : ℚ) (s : DevState)
    (h : s.connected = true) :
    step now lead trail s = stepConnected now lead trail s := by
  simp [step, h]

theorem recordLoop_exitTime : ∀ (fuel rend t : Nat) (s : DevState), rend - t ≤ fuel →
    (recordLoop fuel rend t s).2 = loopExit t rend := by
  intro fuel
  induction fuel with
  | zero =>
    intro rend t s h
    simp only [recordLoop, loopExit]
    omega
  | succ n ih =>
    intro rend t s h
    by_cases hlt : t < rend
    · rw [recordLoop, if_pos hlt, ih rend (t + sampleDelayMs) (recordData t s) (by
        simp only [sampleDelayMs]
        omega)]
      simp only [loopExit, sampleDelayMs]
      omega
    · rw [recordLoop, if_neg hlt]
      simp only [loopExit]
      omega

theorem triggerPhase_fst (now : Nat) (s : DevState) :
    (triggerPhase now s).1.countdownStart = 0 ∧
    (triggerPhase now s).1.recording = false ∧
    (triggerPhase now s).1.times = [] ∧
    (triggerPhase now s).1.leadWeights = [] ∧
    (triggerPhase now s).1.trailWeights = [] := by
  simp [triggerPhase, resetRecording]

theorem triggerPhase_snd (now : Nat) (s : DevState) :
    ∃ pay : String, (triggerPhase now s).2 =
      [(now, Event.START_SWING),
       (loopExit now (recordEndOf now s.backFrames s.downFrames) +
          (⌊backDelayOf s.backFrames⌋).toNat, Event.TOP_BEEP),
       (loopExit now (recordEndOf now s.backFrames s.downFrames) +
          (⌊backDelayOf s.backFrames⌋).toNat + (⌊downDelayOf s.downFrames⌋).toNat,
        Event.IMPACT_BEEP),
       (loopExit now (recordEndOf now s.backFrames s.downFrames) +
          (⌊backDelayOf s.backFrames⌋).toNat + (⌊downDelayOf s.downFrames⌋).toNat,
        Event.DATA pay)] := by
  simp only [triggerPhase]
  rw [recordLoop_exitTime _ _ _ _ (by omega)]
  exact ⟨_, rfl⟩

theorem not_space_of_digit (c : Char) (h : c.isDigit = true) : isSpaceChar c = false := by
  cases hsp : isSpaceChar c
  · rfl
  · exfalso
    unfold isSpaceChar at hsp
    simp only [Bool.or_eq_true, decide_eq_true_eq] at hsp
    rcases hsp with ((((h1 | h1) | h1) | h1) | h1) | h1 <;> subst h1 <;>
      exact absurd h (by decide)

theorem digit_not_sign (c : Char) (h : c.isDigit = true) :
    c ≠ '/' ∧ c ≠ '-' ∧ c ≠ '+' := by
  refine ⟨?_, ?_, ?_⟩ <;> intro e <;> subst e <;> exact absurd h (by decide)

theorem readDigits_all : ∀ (l : List Char) (acc : Nat), (∀ c ∈ l, c.isDigit = true) →
    readDigits acc l = l.foldl (fun a c => 10 * a + (c.toNat - 48)) acc := by
  intro l
  induction l with
  | nil => intro acc h; rfl
  | cons c t ih =>
    intro acc h
    simp only [readDigits, if_pos (h c (by simp)), List.foldl_cons]
    exact ih _ (fun d hd => h d (by simp [hd]))

theorem atoi_digits (l : List Char) (hne : l ≠ []) (hdig : ∀ c ∈ l, c.isDigit = true) :
    atoi l = (decimalValue l : Int) := by
  obtain ⟨c, t, rfl⟩ := List.exists_cons_of_ne_nil hne
  have hc := hdig c (by simp)
  unfold atoi
  rw [List.dropWhile_cons]
  simp only [not_space_of_digit c hc, Bool.false_eq_true, if_false]
  rw [if_neg (digit_not_sign c hc).2.1, if_neg (digit_not_sign c hc).2.2,
      readDigits_all _ _ hdig]
  simp [decimalValue]

theorem splitSlash_append : ∀ (ls rs : List Char), '/' ∉ ls →
    splitSlash (ls ++ '/' :: rs) = some (ls, rs) := by
  intro ls
  induction ls with
  | nil => intro rs h; simp [splitSlash]
  | cons c t ih =>
    intro rs h
    have hc : ¬ (c = '/') := fun e => h (by simp [e])
    simp [List.cons_append, splitSlash, if_neg hc,
      ih rs (fun m => h (List.mem_cons_of_mem _ m))]

theorem splitSlash_none : ∀ (cs : List Char), '/' ∉ cs → splitSlash cs = none := by
  intro cs
  induction cs with
  | nil => intro h; rfl
  | cons c t ih =>
    intro h
    have hc : ¬ (c = '/') := fun e => h (by simp [e])
    simp [splitSlash, if_neg hc, ih (fun m => h (List.mem_cons_of_mem _ m))]

theorem recordData_len (now : Nat) (s : DevState) :
    (recordData now s).times.length = s.times.length + (if s.recording = true then 1 else 0) ∧
    (recordData now s).leadWeights.length =
      s.leadWeights.length + (if s.recording = true then 1 else 0) ∧
    (recordData now s).trailWeights.length =
      s.trailWeights.length + (if s.recording = true then 1 else 0) := by
  by_cases h : s.recording = true <;> simp [recordData, h]

theorem recordData_eqLen (now : Nat) (s : DevState) (h : eqLen s) :
    eqLen (recordData now s) := by
  obtain ⟨hl, ht⟩ := h
  obtain ⟨a, b, c⟩ := recordData_len now s
  exact ⟨by omega, by omega⟩

theorem recordLoop_eqLen : ∀ (fuel rend t : Nat) (s : DevState), eqLen s →
    eqLen (recordLoop fuel rend t s).1 := by
  intro fuel
  induction fuel with
  | zero => intro rend t s h; exact h
  | succ n ih =>
    intro rend t s h
    by_cases hlt : t < rend
    · rw [recordLoop, if_pos hlt]
      exact ih _ _ _ (recordData_eqLen _ _ h)
    · rw [recordLoop, if_neg hlt]
      exact h

theorem triggerPhase_times (now : Nat) (s : DevState) : (triggerPhase now s).1.times = [] := by
  simp [triggerPhase, resetRecording]

theorem triggerPhase_leads (now : Nat) (s : DevState) :
    (triggerPhase now s).1.leadWeights = [] := by
  simp [triggerPhase, resetRecording]

theorem triggerPhase_trails (now : Nat) (s : DevState) :
    (triggerPhase now s).1.trailWeights = [] := by
  simp [triggerPhase, resetRecording]

theorem triggerPhase_eqLen (now : Nat) (s : DevState) : eqLen (triggerPhase now s).1 := by
  obtain ⟨h1, h2, h3, h4, h5⟩ := triggerPhase_fst now s
  exact ⟨by rw [h3, h4], by rw [h3, h5]⟩

theorem step_eqLen (now : Nat) (lead trail : ℚ) (s : DevState) (h : eqLen s) :
    eqLen (step now lead trail s).1 := by
  obtain ⟨hl, ht⟩ := h
  by_cases hc : s.connected = true
  · rw [step_of_connected _ _ _ _ hc]
    simp only [stepConnected]
    repeat' split
    all_goals first
      | exact ⟨by simpa using hl, by simpa using ht⟩
      | exact ⟨by simp [triggerPhase_times, triggerPhase_leads, resetRecording],
               by simp [triggerPhase_times, triggerPhase_trails, resetRecording]⟩
  · simp only [step]
    rw [if_neg hc]
    exact ⟨hl, ht⟩

theorem runTicks_eqLen : ∀ (ticks : List (Nat × ℚ × ℚ)) (s : DevState), eqLen s →
    eqLen (runTicks ticks s).1 := by
  intro ticks
  induction ticks with
  | nil => intro s h; exact h
  | cons tk ts ih =>
    intro s h
    simp only [runTicks]
    exact ih _ (step_eqLen _ _ _ _ h)

theorem step1000 : step 1000 1500 1500 (onConnect initState) =
    (c1a, [(1000, Event.WEIGHT_DETECTED)]) := by
  rw [step_of_connected _ _ _ _ rfl, stepConnected_detect _ _ _ _ presence1500 rfl]
  rfl

theorem c1run : runTicks c1Ticks (onConnect initState) =
    (c1b, [(1000, Event.WEIGHT_DETECTED)]) := by
  have h2 : step 5100 1500 1500 c1a = (c1b, []) := by
    rw [step_of_connected _ _ _ _ rfl,
        stepConnected_armed _ _ _ _ presence1500 (by decide) (by decide) (by decide)
          (by decide) (by decide) rfl]
    rfl
  have h3 : step 5900 1500 1500 c1b = (c1b, []) := by
    rw [step_of_connected _ _ _ _ rfl,
        stepConnected_armed_already _ _ _ _ presence1500 (by decide) (by decide)
          (by decide) (by decide) rfl]
    rfl
  simp [c1Ticks, runTicks, step1000, h2, h3]

theorem c1State_eq : c1State = c1b := by
  simp [c1State, c1run]

theorem preDisconnect_eq : preDisconnect = c1a := by
  simp [preDisconnect, runTicks, step1000]

theorem c2run : ∃ pay : String, c2Run.2 =
    [(1000, Event.WEIGHT_DETECTED), (6000, Event.START_SWING), (7506, Event.TOP_BEEP),
     (7605, Event.IMPACT_BEEP), (7605, Event.DATA pay)] := by
  have h1 : step 1000 1500 1500 c2State = (c2a, [(1000, Event.WEIGHT_DETECTED)]) := by
    rw [step_of_connected _ _ _ _ (by decide),
        stepConnected_detect _ _ _ _ presence1500 (by decide)]
    rfl
  have h2 : step 6000 1500 1500 c2a =
      triggerPhase 6000 { c2a with lastLead := 1500, lastTrail := 1500 } := by
    rw [step_of_connected _ _ _ _ (by decide),
        stepConnected_trigger _ _ _ _ presence1500 (by decide) (by decide) (by decide)
          (by decide)]
  obtain ⟨pay, hev⟩ := triggerPhase_snd 6000 { c2a with lastLead := 1500, lastTrail := 1500 }
  have hbf : ({ c2a with lastLead := (1500 : ℚ), lastTrail := (1500 : ℚ) }).backFrames = 6 := by
    decide
  have hdf : ({ c2a with lastLead := (1500 : ℚ), lastTrail := (1500 : ℚ) }).downFrames = 3 := by
    decide
  rw [hbf, hdf] at hev
  have hre : recordEndOf 6000 6 3 = 7297 := by with_unfolding_all decide
  have hlx : loopExit 6000 7297 = 7308 := by decide
  have hbd : (⌊backDelayOf 6⌋).toNat = 198 := by with_unfolding_all decide
  have hdd : (⌊downDelayOf 3⌋).toNat = 99 := by with_unfolding_all decide
  rw [hre, hlx, hbd, hdd] at hev
  norm_num at hev
  refine ⟨pay, ?_⟩
  simp [c2Run, runTicks, h1, h2, hev]

theorem c7run : c7Run =
    ({ c7b with lastLead := 500, lastTrail := 500 },
     [(1000, Event.WEIGHT_DETECTED), (3000, Event.STEPPED_OFF)]) := by
  have h2 : step 3000 500 1500 c1a = (c7b, [(3000, Event.STEPPED_OFF)]) := by
    rw [step_of_connected _ _ _ _ rfl,
        stepConnected_stepoff _ _ _ _ absent_500_1500 (by decide)]
    rfl
  have h3 : step 3100 500 500 c7b = ({ c7b with lastLead := 500, lastTrail := 500 }, []) := by
    rw [step_of_connected _ _ _ _ rfl,
        stepConnected_idle_absent _ _ _ _ absent_500_500 rfl]
  simp [c7Run, c7Ticks, runTicks, step1000, h2, h3]

theorem c3reconnect : ∃ pay : String,
    (step 7000 1500 1500 (onConnect (onDisconnect c1a))).2 =
      [(7000, Event.START_SWING), (8008, Event.TOP_BEEP),
       (8008, Event.IMPACT_BEEP), (8008, Event.DATA pay)] := by
  have h : step 7000 1500 1500 (onConnect (onDisconnect c1a)) =
      triggerPhase 7000 { onConnect (onDisconnect c1a) with
        lastLead := 1500, lastTrail := 1500 } := by
    rw [step_of_connected _ _ _ _ rfl,
        stepConnected_trigger _ _ _ _ presence1500 (by decide) (by decide) (by decide)
          (by decide)]
  obtain ⟨pay, hev⟩ := triggerPhase_snd 7000
    { onConnect (onDisconnect c1a) with lastLead := 1500, lastTrail := 1500 }
  have hbf : ({ onConnect (onDisconnect c1a) with
      lastLead := (1500 : ℚ), lastTrail := (1500 : ℚ) }).backFrames = 0 := by decide
  have hdf : ({ onConnect (onDisconnect c1a) with
      lastLead := (1500 : ℚ), lastTrail := (1500 : ℚ) }).downFrames = 0 := by decide
  rw [hbf, hdf] at hev
  have hre : recordEndOf 7000 0 0 = 8000 := by with_unfolding_all decide
  have hlx : loopExit 7000 8000 = 8008 := by decide
  have hbd : (⌊backDelayOf 0⌋).toNat = 0 := by with_unfolding_all decide
  have hdd : (⌊downDelayOf 0⌋).toNat = 0 := by with_unfolding_all decide
  rw [hre, hlx, hbd, hdd] at hev
  norm_num at hev
  refine ⟨pay, ?_⟩
  rw [h, hev]

/-- C1 counterexample: with presence true from the first tick, after two full
ticks inside the armed window (elapsed 4100 ms and 4900 ms) the recording
flag is set but the Recorder holds zero samples, and the next tick — entered
with the Recorder still empty — emits `START_SWING` first.  This refutes
both "one append call per tick during ARMED_RECORDING" and "non-zero length
at the moment START_SWING fires". -/
theorem C1_cex :
    c1State.recording = true ∧ c1State.times = [] ∧ ¬ 0 < c1State.times.length ∧
    ∃ (pay : String) (t1 t2 : Nat),
      (step 6000 1500 1500 c1State).2 =
        [(6000, Event.START_SWING), (t1, Event.TOP_BEEP),
         (t2, Event.IMPACT_BEEP), (t2, Event.DATA pay)] := by
  have htr : step 6000 1500 1500 c1b =
      triggerPhase 6000 { c1b with lastLead := 1500, lastTrail := 1500 } := by
    rw [step_of_connected _ _ _ _ rfl,
        stepConnected_trigger _ _ _ _ presence1500 (by decide) (by decide) (by decide)
          (by decide)]
  obtain ⟨pay, hev⟩ := triggerPhase_snd 6000 { c1b with lastLead := 1500, lastTrail := 1500 }
  rw [c1State_eq]
  exact ⟨rfl, rfl, by decide, pay, _, _, (congrArg Prod.snd htr).trans hev⟩

/-- C1 amended: during the ARMED_RECORDING window (countdown running,
4000 ms ≤ elapsed < 5000 ms, presence true) a tick only sets the recording
flag: it appends nothing to any of the three sequences and emits no event;
consequently in the canonical presence-from-tick-0 run the Recorder still
has length 0 at the tick that emits `START_SWING` (appends happen only
inside the post-trigger sampling window). -/
theorem C1_amended :
    (∀ (now : Nat) (lead trail : ℚ) (s : DevState), s.connected = true →
      WEIGHT_THRESHOLD < lead → WEIGHT_THRESHOLD < trail →
      s.countdownStart ≠ 0 → s.countdownStart ≤ now →
      4000 ≤ now - s.countdownStart → now - s.countdownStart < 5000 →
      (step now lead trail s).1.times = s.times ∧
      (step now lead trail s).1.leadWeights = s.leadWeights ∧
      (step now lead trail s).1.trailWeights = s.trailWeights ∧
      (step now lead trail s).1.recording = true ∧
      (step now lead trail s).2 = []) ∧
    (c1State.times = [] ∧
     ∃ (pay : String) (t1 t2 : Nat),
       (step 6000 1500 1500 c1State).2 =
         [(6000, Event.START_SWING), (t1, Event.TOP_BEEP),
          (t2, Event.IMPACT_BEEP), (t2, Event.DATA pay)]) := by
  constructor
  · intro now lead trail s hconn hpl hpt hcs hle h4 h5
    rw [step_of_connected _ _ _ _ hconn]
    by_cases hrec : s.recording = true
    · rw [stepConnected_armed_already now lead trail s ⟨hpl, hpt⟩ hcs hle (by omega)
          (by omega) hrec]
      exact ⟨rfl, rfl, rfl, hrec, rfl⟩
    · have hrec2 : s.recording = false := by
        revert hrec
        cases s.recording <;> simp
      rw [stepConnected_armed now lead trail s ⟨hpl, hpt⟩ hcs hle (by omega) (by omega)
          (by omega) hrec2]
      exact ⟨rfl, rfl, rfl, rfl, rfl⟩
  · have htr : step 6000 1500 1500 c1b =
        triggerPhase 6000 { c1b with lastLead := 1500, lastTrail := 1500 } := by
      rw [step_of_connected _ _ _ _ rfl,
          stepConnected_trigger _ _ _ _ presence1500 (by decide) (by decide) (by decide)
            (by decide)]
    obtain ⟨pay, hev⟩ := triggerPhase_snd 6000 { c1b with lastLead := 1500, lastTrail := 1500 }
    rw [c1State_eq]
    exact ⟨rfl, pay, _, _, (congrArg Prod.snd htr).trans hev⟩

/-- C1 witness: the armed-window part of `C1_amended` applied at a concrete
state (countdown started at 1000 ms, tick at 5500 ms, both readings 1500 g). -/
theorem C1_witness :
    (step 5500 1500 1500 armedState).1.times = armedState.times ∧
    (step 5500 1500 1500 armedState).1.leadWeights = armedState.leadWeights ∧
    (step 5500 1500 1500 armedState).1.trailWeights = armedState.trailWeights ∧
    (step 5500 1500 1500 armedState).1.recording = true ∧
    (step 5500 1500 1500 armedState).2 = [] :=
  C1_amended.1 5500 1500 1500 armedState rfl (by with_unfolding_all decide)
    (by with_unfolding_all decide) (by decide) (by decide) (by decide) (by decide)

/-- C2 counterexample: in a full cycle at tempo 6/3 (countdown from 1000 ms,
trigger at 6000 ms) backDelay is 198 ms and downDelay 99 ms as claimed, but
TOP_BEEP is notified at 7506 ms — 1506 ms after START_SWING at 6000 ms, not
198 ms after it. -/
theorem C2_cex :
    backDelayOf 6 = 198 ∧ downDelayOf 3 = 99 ∧
    (∃ pay : String, c2Run.2 =
      [(1000, Event.WEIGHT_DETECTED), (6000, Event.START_SWING),
       (7506, Event.TOP_BEEP), (7605, Event.IMPACT_BEEP), (7605, Event.DATA pay)]) ∧
    7506 - 6000 ≠ 198 :=
  ⟨by with_unfolding_all decide, by with_unfolding_all decide, c2run, by decide⟩

/-- C2 amended: at tempo 6/3 backDelay = 198 ms, downDelay = 99 ms, and the
configured extra recording window is 198 + 99 + 1000 = 1297 ms, as claimed;
but the 12 ms sampling cadence leaves the loop at 1308 ms, TOP_BEEP is
emitted backDelay = 198 ms after the sampling loop ends (1506 ms after
START_SWING), and IMPACT_BEEP is emitted 99 ms after TOP_BEEP. -/
theorem C2_amended :
    backDelayOf 6 = 198 ∧ downDelayOf 3 = 99 ∧ totalRecordOf 6 3 = 1297 ∧
    recordEndOf 6000 6 3 = 6000 + 1297 ∧ loopExit 6000 7297 = 6000 + 1308 ∧
    (∃ pay : String, c2Run.2 =
      [(1000, Event.WEIGHT_DETECTED), (6000, Event.START_SWING),
       (7506, Event.TOP_BEEP), (7605, Event.IMPACT_BEEP), (7605, Event.DATA pay)]) ∧
    7506 = 6000 + 1308 + 198 ∧ 7605 - 7506 = 99 :=
  ⟨by with_unfolding_all decide, by with_unfolding_all decide,
   by with_unfolding_all decide, by with_unfolding_all decide, by decide,
   c2run, by decide, by decide⟩

/-- C3 counterexample: disconnecting mid-countdown leaves `countdownStart`
at 1000, so the machine is not reset to IDLE; on reconnect the very first
presence tick (at 7000 ms) emits START_SWING from the stale countdown — no
fresh cycle, no new WEIGHT_DETECTED. -/
theorem C3_cex :
    (onDisconnect preDisconnect).countdownStart = 1000 ∧
    ¬ (onDisconnect preDisconnect).countdownStart = 0 ∧
    ∃ pay : String,
      (step 7000 1500 1500 (onConnect (onDisconnect preDisconnect))).2 =
        [(7000, Event.START_SWING), (8008, Event.TOP_BEEP),
         (8008, Event.IMPACT_BEEP), (8008, Event.DATA pay)] := by
  rw [preDisconnect_eq]
  exact ⟨rfl, by decide, c3reconnect⟩

/-- C3 amended: a disconnect in any phase aborts the recording (flag cleared)
and clears the three sequences, but leaves `countdownStart` unchanged — the
countdown phase survives the disconnect instead of being forced to IDLE. -/
theorem C3_amended (s : DevState) :
    (onDisconnect s).recording = false ∧
    (onDisconnect s).times = [] ∧
    (onDisconnect s).leadWeights = [] ∧
    (onDisconnect s).trailWeights = [] ∧
    (onDisconnect s).connected = false ∧
    (onDisconnect s).countdownStart = s.countdownStart :=
  ⟨rfl, rfl, rfl, rfl, rfl, rfl⟩

/-- C4 counterexample: the malformed command `"x/y"` (both sides
non-numeric) does not retain the previous config (6, 3): both fields are
overwritten with `atoi`'s 0. -/
theorem C4_cex :
    onWrite "x/y" { initState with backFrames := 6, downFrames := 3 } ≠
      { initState with backFrames := 6, downFrames := 3 } ∧
    (onWrite "x/y" { initState with backFrames := 6, downFrames := 3 }).backFrames = 0 ∧
    (onWrite "x/y" { initState with backFrames := 6, downFrames := 3 }).downFrames = 0 := by
  with_unfolding_all decide

/-- C4 amended: a valid command `"B/D"` (both sides non-empty digit strings)
sets the config to (B, D), and a command with no `/` leaves the config
unchanged; but when a `/` is present both fields are always assigned via
`atoi`, so a non-numeric side is stored as 0 rather than retained (see
`C4_cex`).  Partial updates still never occur: both fields are written. -/
theorem C4_amended :
    (∀ (ls rs : List Char) (s : DevState), ls ≠ [] → (∀ c ∈ ls, c.isDigit = true) →
      rs ≠ [] → (∀ c ∈ rs, c.isDigit = true) →
      onWrite (String.mk (ls ++ '/' :: rs)) s =
        { s with backFrames := (decimalValue ls : Int),
                 downFrames := (decimalValue rs : Int) }) ∧
    (∀ (raw : String) (s : DevState), '/' ∉ raw.data → onWrite raw s = s) := by
  constructor
  · intro ls rs s hlne hld hrne hrd
    obtain ⟨c, t, rfl⟩ := List.exists_cons_of_ne_nil hlne
    have hsl : '/' ∉ c :: t := fun m => absurd (hld _ m) (by decide)
    have hsplit : splitSlash ((c :: t) ++ '/' :: rs) = some (c :: t, rs) :=
      splitSlash_append _ _ hsl
    simp only [onWrite, List.cons_append] at hsplit ⊢
    rw [hsplit]
    dsimp only
    rw [atoi_digits _ (by simp) hld, atoi_digits _ hrne hrd]
  · intro raw s h
    unfold onWrite
    cases hr : raw.data with
    | nil => rfl
    | cons c l =>
      dsimp only
      rw [splitSlash_none _ (hr ▸ h)]

/-- C4 witness: the valid-command part of `C4_amended` applied to the command
`"12/3"` from the default config. -/
theorem C4_witness :
    onWrite (String.mk (['1', '2'] ++ '/' :: ['3'])) initState =
      { initState with backFrames := (decimalValue ['1', '2'] : Int),
                       downFrames := (decimalValue ['3'] : Int) } :=
  C4_amended.1 ['1', '2'] ['3'] initState (by decide) (by decide) (by decide) (by decide)

/-- C5 counterexample: serializing the empty RecordedSeries does not produce
the claimed string `"();();();()"`. -/
theorem C5_cex : sendData [] [] [] ≠ "();();();()" := by
  with_unfolding_all decide

/-- C5 amended: serializing the empty RecordedSeries produces `");););)"`:
each `remove(length - 1)`, meant to strip a trailing comma, deletes the
preceding character instead when the group is empty. -/
theorem C5_amended : sendData [] [] [] = ");););)" := by
  with_unfolding_all decide

/-- C6: serializing times = [0.0125, 0.025], lead = [1200.0, 1205.5],
trail = [1100.0, 1102.3] yields exactly the claimed four-group string —
times at 4 decimal places, lead weights at 1, times again, trail weights
at 1, joined by semicolons. -/
theorem C6_render_roundtrip :
    sendData [(0.0125 : ℚ), 0.025] [1200, 1205.5] [1100, 1102.3] =
      "(0.0125,0.0250);(1200.0,1205.5);(0.0125,0.0250);(1100.0,1102.3)" := by
  with_unfolding_all decide

/-- C7: a step-off strictly before the 5000 ms boundary.  Part 1: on any tick
with presence false while a countdown is running — including a tick whose
elapsed time has already crossed a timer boundary, since the presence test
dominates every timer check — exactly one STEPPED_OFF is emitted and the
state is fully reset (countdown 0, recording off, all three sequences
empty).  Part 2: with no countdown running, an absent tick emits nothing and
changes no recording state, so STEPPED_OFF cannot fire twice.  Part 3: the
concrete run `c7Ticks` (presence at 1000 ms, step-off at 3000 ms) emits
exactly WEIGHT_DETECTED then STEPPED_OFF and ends in IDLE with an empty
Recorder. -/
theorem C7_stepoff :
    (∀ (now : Nat) (lead trail : ℚ) (s : DevState), s.connected = true →
      ¬ (WEIGHT_THRESHOLD < lead ∧ WEIGHT_THRESHOLD < trail) → s.countdownStart ≠ 0 →
      (step now lead trail s).2 = [(now, Event.STEPPED_OFF)] ∧
      (step now lead trail s).1.countdownStart = 0 ∧
      (step now lead trail s).1.recording = false ∧
      (step now lead trail s).1.times = [] ∧
      (step now lead trail s).1.leadWeights = [] ∧
      (step now lead trail s).1.trailWeights = []) ∧
    (∀ (now : Nat) (lead trail : ℚ) (s : DevState), s.connected = true →
      ¬ (WEIGHT_THRESHOLD < lead ∧ WEIGHT_THRESHOLD < trail) → s.countdownStart = 0 →
      (step now lead trail s).2 = [] ∧
      (step now lead trail s).1.times = s.times ∧
      (step now lead trail s).1.countdownStart = 0) ∧
    (c7Run.2.map Prod.snd = [Event.WEIGHT_DETECTED, Event.STEPPED_OFF] ∧
     c7Run.1.countdownStart = 0 ∧ c7Run.1.times = []) := by
  refine ⟨?_, ?_, ?_⟩
  · intro now lead trail s hconn hnp hcs
    rw [step_of_connected _ _ _ _ hconn, stepConnected_stepoff _ _ _ _ hnp hcs]
    exact ⟨rfl, rfl, rfl, rfl, rfl, rfl⟩
  · intro now lead trail s hconn hnp hcs
    rw [step_of_connected _ _ _ _ hconn, stepConnected_idle_absent _ _ _ _ hnp hcs]
    exact ⟨rfl, rfl, hcs⟩
  · rw [c7run]
    exact ⟨rfl, rfl, rfl⟩

/-- C7 witness: the step-off part of `C7_stepoff` at a concrete mid-countdown
state with an absent tick at exactly the 5000 ms boundary (elapsed = 5000),
showing the tie-break in favour of STEPPED_OFF. -/
theorem C7_witness :
    (step 6000 0 0 armedState).2 = [(6000, Event.STEPPED_OFF)] ∧
    (step 6000 0 0 armedState).1.countdownStart = 0 ∧
    (step 6000 0 0 armedState).1.recording = false ∧
    (step 6000 0 0 armedState).1.times = [] ∧
    (step 6000 0 0 armedState).1.leadWeights = [] ∧
    (step 6000 0 0 armedState).1.trailWeights = [] :=
  C7_stepoff.1 6000 0 0 armedState rfl (by with_unfolding_all decide) (by decide)

/-- C8: the three RecordedSeries sequences stay the same length at every
observation point.  `recordData` appends exactly one element to each of the
three when recording (none otherwise); every iteration of the sampling loop,
every `loop()` tick, and every whole run preserve equal lengths; and
`resetRecording` and `onDisconnect` clear all three together. -/
theorem C8_parallel_invariant :
    (∀ (now : Nat) (s : DevState),
      (recordData now s).times.length =
        s.times.length + (if s.recording = true then 1 else 0) ∧
      (recordData now s).leadWeights.length =
        s.leadWeights.length + (if s.recording = true then 1 else 0) ∧
      (recordData now s).trailWeights.length =
        s.trailWeights.length + (if s.recording = true then 1 else 0)) ∧
    (∀ (fuel rend t : Nat) (s : DevState), eqLen s → eqLen (recordLoop fuel rend t s).1) ∧
    (∀ (now : Nat) (lead trail : ℚ) (s : DevState), eqLen s →
      eqLen (step now lead trail s).1) ∧
    (∀ (ticks : List (Nat × ℚ × ℚ)) (s : DevState), eqLen s →
      eqLen (runTicks ticks s).1) ∧
    (∀ s : DevState, eqLen (resetRecording s) ∧ eqLen (onDisconnect s) ∧
      (onDisconnect s).times = [] ∧ (onDisconnect s).leadWeights = [] ∧
      (onDisconnect s).trailWeights = []) :=
  ⟨recordData_len, recordLoop_eqLen, step_eqLen, runTicks_eqLen,
   fun _ => ⟨⟨rfl, rfl⟩, ⟨rfl, rfl⟩, rfl, rfl, rfl⟩⟩

/-- C8 witness: run-level preservation of the length invariant on the
concrete run `c7Ticks` from a freshly connected device. -/
theorem C8_witness : eqLen (runTicks c7Ticks (onConnect initState)).1 :=
  C8_parallel_invariant.2.2.2.1 c7Ticks (onConnect initState) ⟨rfl, rfl⟩

/-- C9 counterexample: the command handler is the composition of two separate
field assignments (backFrames first, then downFrames).  With old config
(6, 3) and command `"2/9"`, the shared state between the two assignments
holds (2, 3) — neither the old pair (6, 3) nor the new pair (2, 9) — so a
tick interleaved between the two assignments observes a partially-updated
config. -/
theorem C9_cex :
    onWrite "2/9" c9Old = writeDownFrames "2/9" (writeBackFrames "2/9" c9Old) ∧
    ((writeBackFrames "2/9" c9Old).backFrames,
      (writeBackFrames "2/9" c9Old).downFrames) = ((2 : Int), (3 : Int)) ∧
    ¬ ((2 : Int), (3 : Int)) = ((6 : Int), (3 : Int)) ∧
    ¬ ((2 : Int), (3 : Int)) = ((2 : Int), (9 : Int)) := by
  with_unfolding_all decide

/-- C9 amended: for every command containing a `/`, the update decomposes
into the two successive unsynchronized assignments of the source — after the
first assignment the shared config holds the new backFrames with the old
downFrames, so a tick interleaved between them observes a mixed pair;
atomicity with respect to the tick loop is not provided. -/
theorem C9_amended :
    ∀ (raw : String) (s : DevState) (p : List Char × List Char),
      splitSlash raw.data = some p →
      onWrite raw s = writeDownFrames raw (writeBackFrames raw s) ∧
      (writeBackFrames raw s).downFrames = s.downFrames ∧
      (writeBackFrames raw s).backFrames = atoi p.1 := by
  intro raw s p h
  cases hr : raw.data with
  | nil =>
    rw [hr] at h
    exact absurd h (by simp [splitSlash])
  | cons c l =>
    rw [hr] at h
    unfold onWrite writeBackFrames writeDownFrames
    rw [hr]
    dsimp only
    rw [h]
    exact ⟨rfl, rfl, rfl⟩

/-- C9 witness: `C9_amended` at the command `"2/9"` and the concrete old
config (6, 3). -/
theorem C9_witness :
    onWrite "2/9" c9Old = writeDownFrames "2/9" (writeBackFrames "2/9" c9Old) ∧
    (writeBackFrames "2/9" c9Old).downFrames = c9Old.downFrames ∧
    (writeBackFrames "2/9" c9Old).backFrames = atoi (['2'], ['9']).1 :=
  C9_amended "2/9" c9Old (['2'], ['9']) (by decide)

/-- C10: the handler never rejects numeric values when a `/` is present —
both fields are always assigned through `atoi`: `"-2/3"` stores (-2, 3), a
side with no leading digits is stored as 0 (`"abc/3"` stores (0, 3)), and
the stored value feeds the delay computation unvalidated
(backDelay of -2 frames is the negative -66 ms). -/
theorem C10_atoi :
    (∀ (raw : String) (s : DevState) (p : List Char × List Char),
      splitSlash raw.data = some p →
      onWrite raw s = { s with backFrames := atoi p.1, downFrames := atoi p.2 }) ∧
    (∀ s : DevState, onWrite "-2/3" s = { s with backFrames := -2, downFrames := 3 }) ∧
    (∀ s : DevState, onWrite "abc/3" s = { s with backFrames := 0, downFrames := 3 }) ∧
    backDelayOf (-2) = -66 := by
  have gen : ∀ (raw : String) (s : DevState) (p : List Char × List Char),
      splitSlash raw.data = some p →
      onWrite raw s = { s with backFrames := atoi p.1, downFrames := atoi p.2 } := by
    intro raw s p h
    cases hr : raw.data with
    | nil =>
      rw [hr] at h
      exact absurd h (by simp [splitSlash])
    | cons c l =>
      rw [hr] at h
      unfold onWrite
      rw [hr]
      dsimp only
      rw [h]
  refine ⟨gen, ?_, ?_, by with_unfolding_all decide⟩
  · intro s
    rw [gen "-2/3" s (['-', '2'], ['3']) (by decide),
        show atoi ['-', '2'] = (-2 : Int) from by decide,
        show atoi ['3'] = (3 : Int) from by decide]
  · intro s
    rw [gen "abc/3" s (['a', 'b', 'c'], ['3']) (by decide),
        show atoi ['a', 'b', 'c'] = (0 : Int) from by decide,
        show atoi ['3'] = (3 : Int) from by decide]

/-- C10 witness: the general part of `C10_atoi` at the command `"1/2"`. -/
theorem C10_witness :
    onWrite "1/2" initState =
      { initState with backFrames := atoi (['1'], ['2']).1,
                       downFrames := atoi (['1'], ['2']).2 } :=
  C10_atoi.1 "1/2" initState (['1'], ['2']) (by decide)

end PressurePad
